import Mathlib

/-!
Shallow embedding of the image-resolution core of the floki tool
(src/image.rs): the Image specification (literal name, build spec,
yaml-extraction spec), the yaml dot-path resolver built on the
indexing semantics of the yaml document type, and the docker
build / pull / history wrappers.  External effects (file reads,
yaml parsing, process spawning) are passed in as explicit oracle
functions; a panic is modelled as the `none` result.
-/

set_option autoImplicit false

namespace Floki

/-- A filesystem path, as a list of components plus an absolute flag
(modelling `std::path::PathBuf`). -/
structure Path where
  absolute : Bool
  components : List String
deriving DecidableEq

/-- `Path::join`: an absolute right operand replaces the left one,
otherwise the components are appended. -/
def Path.join (p q : Path) : Path :=
  if q.absolute then q else { absolute := p.absolute, components := p.components ++ q.components }

/-- `Path::display` rendering, used when formatting error messages. -/
def Path.display (p : Path) : String :=
  (if p.absolute then "/" else "") ++ String.intercalate "/" p.components

/-- A yaml document node, as in the yaml document crate used by the
source: scalars, arrays, hashes (association lists preserving insertion
order), aliases, null, and the out-of-band `BadValue` returned by failed
indexing. -/
inductive Yaml where
  | real (s : String)
  | int (n : Int)
  | str (s : String)
  | bool (b : Bool)
  | arr (xs : List Yaml)
  | hash (entries : List (Yaml × Yaml))
  | alias (n : Nat)
  | null
  | badValue

mutual

/-- Structural equality of yaml nodes, as derived in the source crate. -/
def Yaml.beq : Yaml → Yaml → Bool
  | Yaml.real a, Yaml.real b => a == b
  | Yaml.int a, Yaml.int b => a == b
  | Yaml.str a, Yaml.str b => a == b
  | Yaml.bool a, Yaml.bool b => a == b
  | Yaml.arr xs, Yaml.arr ys => Yaml.beqList xs ys
  | Yaml.hash xs, Yaml.hash ys => Yaml.beqPairs xs ys
  | Yaml.alias a, Yaml.alias b => a == b
  | Yaml.null, Yaml.null => true
  | Yaml.badValue, Yaml.badValue => true
  | _, _ => false

/-- Elementwise equality of yaml arrays. -/
def Yaml.beqList : List Yaml → List Yaml → Bool
  | [], [] => true
  | x :: xs, y :: ys => Yaml.beq x y && Yaml.beqList xs ys
  | _, _ => false

/-- Entrywise equality of yaml hash entry lists. -/
def Yaml.beqPairs : List (Yaml × Yaml) → List (Yaml × Yaml) → Bool
  | [], [] => true
  | (k1, v1) :: xs, (k2, v2) :: ys => Yaml.beq k1 k2 && Yaml.beq v1 v2 && Yaml.beqPairs xs ys
  | _, _ => false

end

/-- Lookup in a hash: the value of the first entry whose key equals the
requested key, `badValue` when absent (the source unwraps the failed
lookup to `BAD_VALUE`). -/
def hashGet : List (Yaml × Yaml) → Yaml → Yaml
  | [], _ => Yaml.badValue
  | (k, v) :: rest, key => if Yaml.beq k key then v else hashGet rest key

/-- The `usize as i64` cast performed when a hash is indexed by a
numeric segment. -/
def usizeAsI64 (n : Nat) : Int :=
  if n < 2 ^ 63 then (n : Int) else (n : Int) - 2 ^ 64

/-- Indexing a yaml node by `usize`: an array is indexed positionally
(out of range gives `badValue`); otherwise a hash is indexed with the
integer key; anything else gives `badValue`. -/
def Yaml.indexUsize (y : Yaml) (i : Nat) : Yaml :=
  match y with
  | Yaml.arr xs => xs.getD i Yaml.badValue
  | Yaml.hash h => hashGet h (Yaml.int (usizeAsI64 i))
  | _ => Yaml.badValue

/-- Indexing a yaml node by a string key: a hash is looked up with the
string key, anything else gives `badValue`. -/
def Yaml.indexStr (y : Yaml) (k : String) : Yaml :=
  match y with
  | Yaml.hash h => hashGet h (Yaml.str k)
  | _ => Yaml.badValue

/-- `Yaml::as_str`: only a `String` scalar is accepted. -/
def Yaml.asStr : Yaml → Option String
  | Yaml.str s => some s
  | _ => none

/-- `str::parse::<usize>`: an optional leading plus sign, then at least
one ascii digit, and the value must fit in 64 bits. -/
def parseUsize (s : String) : Option Nat :=
  let digits : List Char :=
    match s.data with
    | '+' :: rest => rest
    | cs => cs
  if digits = [] then none
  else if digits.all (fun c => c.isDigit) then
    let n := digits.foldl (fun acc c => acc * 10 + (c.toNat - 48)) 0
    if n < 2 ^ 64 then some n else none
  else none

/-- Split a list of characters on a separator character; the result is
always non-empty, and empty input gives one empty group, as with the
`split` method of `str`. -/
def splitCharList (c : Char) : List Char → List (List Char)
  | [] => [[]]
  | x :: xs =>
    match splitCharList c xs with
    | [] => []
    | g :: gs => if x = c then [] :: g :: gs else (x :: g) :: gs

/-- `str::split` on the dot character, as used on the yaml key. -/
def splitDot (s : String) : List String :=
  (splitCharList '.' s.data).map (fun cs => String.mk cs)

/-- The resolver loop of `Image::name` for the yaml variant: walk the
dot-separated segments, preferring a `usize` index when the segment
parses as one, otherwise using the segment as a string key. -/
def resolveSegs (path : List String) (v : Yaml) : Yaml :=
  match path with
  | [] => v
  | key :: rest =>
    resolveSegs rest
      (match parseUsize key with
       | some x => v.indexUsize x
       | none => v.indexStr key)

/-- Resolver as the specification words it: a segment that parses as a
non-negative integer indexes the current node as a sequence only, never
as a mapping.  This definition follows the spec text and is compared
against `resolveSegs`, which follows the source. -/
def resolveSegsSpecWording (path : List String) (v : Yaml) : Yaml :=
  match path with
  | [] => v
  | key :: rest =>
    resolveSegsSpecWording rest
      (match parseUsize key with
       | some x =>
         (match v with
          | Yaml.arr xs => xs.getD x Yaml.badValue
          | _ => Yaml.badValue)
       | none => v.indexStr key)

/-- An i/o error (`std::io::Error`), identified by its message. -/
structure IOErr where
  msg : String
deriving DecidableEq

/-- A yaml scanner error, identified by its message. -/
structure ScanError where
  msg : String
deriving DecidableEq

/-- `std::process::ExitStatus`: a normal exit carries a code, an
abnormal termination (signal) carries none. -/
structure ExitStatus where
  code : Option Int
deriving DecidableEq

/-- `ExitStatus::success`: the process exited normally with code 0. -/
def ExitStatus.success (st : ExitStatus) : Bool :=
  st.code == some 0

/-- `FlokiSubprocessExitStatus`: a description of the invoked command
together with its exit status. -/
structure FlokiSubprocessExitStatus where
  process_description : String
  exit_status : ExitStatus
deriving DecidableEq

/-- The typed errors of `FlokiError` that this module produces. -/
inductive FlokiError where
  | failedToFindYamlKey (key : String) (file : String)
  | failedToBuildImage (image : String) (exit_status : FlokiSubprocessExitStatus)
  | failedToPullImage (image : String) (exit_status : FlokiSubprocessExitStatus)
  | failedToCheckForImage (image : String) (error : IOErr)
deriving DecidableEq

/-- The error type of the fallible operations: an i/o error or a yaml
scan error propagated by the try operator, or a typed `FlokiError`. -/
inductive Error where
  | io (e : IOErr)
  | scan (e : ScanError)
  | floki (e : FlokiError)
deriving DecidableEq

/-- `BuildSpec`: a request to build an image (`name`, `dockerfile`,
`context`, optional `target`). -/
structure BuildSpec where
  name : String
  dockerfile : Path
  context : Path
  target : Option String
deriving DecidableEq

/-- `YamlSpec`: a request to extract an image name from a yaml file. -/
structure YamlSpec where
  file : Path
  key : String
deriving DecidableEq

/-- The `Image` specification: a literal name, a build request, or a
yaml extraction request. -/
inductive Image where
  | Name (s : String)
  | Build (build : BuildSpec)
  | Yaml (yaml : YamlSpec)
deriving DecidableEq

/-- `Image::name`.  File reads and yaml parsing are supplied as oracle
functions.  The result `none` models a panic; `some r` is the returned
`Result`.  For the yaml variant the source indexes the first parsed
document with `raw[0]`, which panics when the document list is empty. -/
def Image.name (img : Image)
    (readToString : Path → Except IOErr String)
    (loadFromStr : String → Except ScanError (List Floki.Yaml)) :
    Option (Except Error String) :=
  match img with
  | Image.Name s => some (Except.ok s)
  | Image.Build b => some (Except.ok (b.name ++ ":floki"))
  | Image.Yaml y =>
    match readToString y.file with
    | Except.error e => some (Except.error (Error.io e))
    | Except.ok contents =>
      match loadFromStr contents with
      | Except.error e => some (Except.error (Error.scan e))
      | Except.ok raw =>
        match raw with
        | [] => none
        | d :: _ =>
          let path := splitDot y.key
          let v := resolveSegs path d
          match v.asStr with
          | some s => some (Except.ok s)
          | none =>
            some (Except.error (Error.floki
              (FlokiError.failedToFindYamlKey y.key y.file.display)))

/-- A subprocess argument: a plain string or a path. -/
inductive Arg where
  | str (s : String)
  | path (p : Path)
deriving DecidableEq

/-- A subprocess invocation: the program and its argument list. -/
structure Command where
  program : String
  args : List Arg
deriving DecidableEq

/-- The docker build command constructed by `obtain_image` for the
build variant: tag is the resolved name, dockerfile and context are
joined against the floki root, the target stage is passed only when
present. -/
def buildCommand (b : BuildSpec) (flokiRoot : Path) : Command :=
  { program := "docker"
    args :=
      [Arg.str "build", Arg.str "-t", Arg.str (b.name ++ ":floki"),
       Arg.str "-f", Arg.path (flokiRoot.join b.dockerfile)]
      ++ (match b.target with
          | some t => [Arg.str "--target", Arg.str t]
          | none => [])
      ++ [Arg.path (flokiRoot.join b.context)] }

/-- `Image::obtain_image`.  The `run` oracle spawns a command and waits
for it, returning its exit status or the i/o error raised by spawn or
wait.  The second component of the result is the list of spawned
commands.  For the build variant `self.name()` cannot fail, and equals
the configured base name with the `:floki` suffix. -/
def Image.obtainImage (img : Image) (flokiRoot : Path)
    (readToString : Path → Except IOErr String)
    (loadFromStr : String → Except ScanError (List Floki.Yaml))
    (run : Command → Except IOErr ExitStatus) :
    Option (Except Error String) × List Command :=
  match img with
  | Image.Build b =>
    let cmd := buildCommand b flokiRoot
    match run cmd with
    | Except.error e => (some (Except.error (Error.io e)), [cmd])
    | Except.ok st =>
      if st.success then (some (Except.ok (b.name ++ ":floki")), [cmd])
      else
        (some (Except.error (Error.floki
          (FlokiError.failedToBuildImage (b.name ++ ":floki")
            { process_description := "docker build", exit_status := st }))), [cmd])
  | _ => (Image.name img readToString loadFromStr, [])

/-- The docker pull command for a given image name. -/
def pullCommand (nm : String) : Command :=
  { program := "docker", args := [Arg.str "pull", Arg.str nm] }

/-- `pull_image`: spawn a docker pull and wait; zero exit is success,
otherwise the typed pull failure carrying the name and exit status. -/
def pull_image (nm : String) (run : Command → Except IOErr ExitStatus) :
    Except Error Unit :=
  match run (pullCommand nm) with
  | Except.error e => Except.error (Error.io e)
  | Except.ok st =>
    if st.success then Except.ok ()
    else
      Except.error (Error.floki
        (FlokiError.failedToPullImage nm
          { process_description := "docker pull", exit_status := st }))

/-- The docker history command for a given image name. -/
def historyCommand (nm : String) : Command :=
  { program := "docker", args := [Arg.str "history", Arg.str nm] }

/-- `image_exists_locally`: run docker history with suppressed streams;
exit code 0 means the image exists, a failure to launch the process is
the typed check failure. -/
def image_exists_locally (nm : String)
    (status : Command → Except IOErr ExitStatus) : Except Error Bool :=
  match status (historyCommand nm) with
  | Except.error e =>
    Except.error (Error.floki (FlokiError.failedToCheckForImage nm e))
  | Except.ok ret => Except.ok (ret.code == some 0)

/-- A yaml node other than the string scalar with text `k` never
compares equal to that string scalar. -/
theorem Yaml.beq_str_eq_false (a : Yaml) (k : String) (h : a ≠ Yaml.str k) :
    Yaml.beq a (Yaml.str k) = false := by
  cases a <;> simp_all [Yaml.beq]

/-- C1: for the name variant, name() returns the stored string unchanged
and never fails; for the build variant with base name N it returns
N ++ ":floki", never fails, and is idempotent with no side effects (the
result does not depend on the effect oracles). -/
theorem C1_name_literal_and_build (s : String) (b : BuildSpec)
    (fs fs2 : Path → Except IOErr String)
    (load load2 : String → Except ScanError (List Yaml)) :
    Image.name (Image.Name s) fs load = some (Except.ok s) ∧
    Image.name (Image.Build b) fs load = some (Except.ok (b.name ++ ":floki")) ∧
    Image.name (Image.Build b) fs load = Image.name (Image.Build b) fs2 load2 ∧
    Image.name (Image.Name s) fs load = Image.name (Image.Name s) fs2 load2 :=
  ⟨rfl, rfl, rfl, rfl⟩

/-- C2 counterexample: on a hash whose key is the integer 0, the
segment "0" resolves to the value under that integer key, while the
claimed sequence-only indexing yields the bad value, so a numeric
segment does not always index the current node as a sequence. -/
theorem C2_counterexample :
    resolveSegs ["0"] (Yaml.hash [(Yaml.int 0, Yaml.str "img")]) = Yaml.str "img" ∧
    resolveSegsSpecWording ["0"] (Yaml.hash [(Yaml.int 0, Yaml.str "img")]) = Yaml.badValue ∧
    Yaml.str "img" ≠ Yaml.badValue :=
  ⟨rfl, rfl, fun h => Yaml.noConfusion h⟩

/-- C2 amended: a segment that parses as a non-negative integer is
resolved with the usize indexer (positional on a sequence, integer-key
lookup on a mapping), any other segment is resolved as a string map
key; consequently a mapping entry whose key is the pure-digit string
itself is never consulted by a numeric segment. -/
theorem C2_amended_segment_dispatch (y : Yaml) (s : String) (rest : List String) :
    (∀ i, parseUsize s = some i →
       resolveSegs (s :: rest) y = resolveSegs rest (y.indexUsize i) ∧
       ∀ (h1 h2 : List (Yaml × Yaml)) (v : Yaml),
         hashGet (h1 ++ (Yaml.str s, v) :: h2) (Yaml.int (usizeAsI64 i))
           = hashGet (h1 ++ h2) (Yaml.int (usizeAsI64 i))) ∧
    (parseUsize s = none →
       resolveSegs (s :: rest) y = resolveSegs rest (y.indexStr s)) := by
  constructor
  · intro i hi
    constructor
    · simp [resolveSegs, hi]
    · intro h1 h2 v
      induction h1 with
      | nil => simp [hashGet, Yaml.beq]
      | cons p t ih =>
        obtain ⟨k1, v1⟩ := p
        simp [hashGet, ih]
  · intro hn
    simp [resolveSegs, hn]

/-- C2 witness: the amended dispatch at the concrete segment "0" on a
one-element sequence. -/
theorem C2_amended_witness :
    resolveSegs ["0"] (Yaml.arr [Yaml.str "a"]) =
      resolveSegs [] ((Yaml.arr [Yaml.str "a"]).indexUsize 0) :=
  ((C2_amended_segment_dispatch (Yaml.arr [Yaml.str "a"]) "0" []).1 0 (by decide)).1

/-- C3: for the build variant, obtain_image spawns exactly one build
invocation, whose program is docker and whose arguments are, in order:
build, -t followed by the resolved name, -f followed by the dockerfile
joined against the floki root, --target followed by the target exactly
when one is present, and finally the context joined against the root. -/
theorem C3_build_command_arguments (b : BuildSpec) (flokiRoot : Path)
    (fs : Path → Except IOErr String)
    (load : String → Except ScanError (List Yaml))
    (run : Command → Except IOErr ExitStatus) :
    (Image.obtainImage (Image.Build b) flokiRoot fs load run).2 = [buildCommand b flokiRoot] ∧
    (buildCommand b flokiRoot).program = "docker" ∧
    (b.target = none →
       (buildCommand b flokiRoot).args =
         [Arg.str "build", Arg.str "-t", Arg.str (b.name ++ ":floki"),
          Arg.str "-f", Arg.path (flokiRoot.join b.dockerfile),
          Arg.path (flokiRoot.join b.context)]) ∧
    (∀ t, b.target = some t →
       (buildCommand b flokiRoot).args =
         [Arg.str "build", Arg.str "-t", Arg.str (b.name ++ ":floki"),
          Arg.str "-f", Arg.path (flokiRoot.join b.dockerfile),
          Arg.str "--target", Arg.str t,
          Arg.path (flokiRoot.join b.context)]) := by
  refine ⟨?_, rfl, ?_, ?_⟩
  · cases h : run (buildCommand b flokiRoot) with
    | error e => simp [Image.obtainImage, h]
    | ok st => cases hs : st.success <;> simp [Image.obtainImage, h, hs]
  · intro h
    simp [buildCommand, h]
  · intro t h
    simp [buildCommand, h]

/-- C3 witness: the command arguments for a concrete build spec with a
target stage. -/
theorem C3_build_command_arguments_witness :
    (buildCommand
      { name := "foo", dockerfile := { absolute := false, components := ["Dockerfile.test"] },
        context := { absolute := false, components := ["ctx"] }, target := some "builder" }
      { absolute := true, components := ["root"] }).args =
      [Arg.str "build", Arg.str "-t", Arg.str ("foo" ++ ":floki"),
       Arg.str "-f",
       Arg.path (Path.join { absolute := true, components := ["root"] }
         { absolute := false, components := ["Dockerfile.test"] }),
       Arg.str "--target", Arg.str "builder",
       Arg.path (Path.join { absolute := true, components := ["root"] }
         { absolute := false, components := ["ctx"] })] :=
  (C3_build_command_arguments
    { name := "foo", dockerfile := { absolute := false, components := ["Dockerfile.test"] },
      context := { absolute := false, components := ["ctx"] }, target := some "builder" }
    { absolute := true, components := ["root"] }
    (fun _ => Except.ok "") (fun _ => Except.ok [])
    (fun _ => Except.ok { code := some 0 })).2.2.2 "builder" rfl

/-- C4: for the build variant, obtain_image returns the resolved name
exactly when the spawned build exits with status zero; on a non-zero or
abnormal exit it returns the build failure carrying the resolved name
and a non-empty process description, and a spawn failure propagates the
i/o error. -/
theorem C4_build_exit_status (b : BuildSpec) (flokiRoot : Path)
    (fs : Path → Except IOErr String)
    (load : String → Except ScanError (List Yaml))
    (run : Command → Except IOErr ExitStatus) :
    (∀ e, run (buildCommand b flokiRoot) = Except.error e →
       (Image.obtainImage (Image.Build b) flokiRoot fs load run).1
         = some (Except.error (Error.io e))) ∧
    (∀ st, run (buildCommand b flokiRoot) = Except.ok st →
       ((Image.obtainImage (Image.Build b) flokiRoot fs load run).1
          = some (Except.ok (b.name ++ ":floki")) ↔ st.success = true) ∧
       (st.success = false →
          (Image.obtainImage (Image.Build b) flokiRoot fs load run).1
            = some (Except.error (Error.floki
                (FlokiError.failedToBuildImage (b.name ++ ":floki")
                  { process_description := "docker build", exit_status := st }))) ∧
          Image.name (Image.Build b) fs load = some (Except.ok (b.name ++ ":floki")) ∧
          ("docker build" : String) ≠ "")) := by
  constructor
  · intro e he
    simp [Image.obtainImage, he]
  · intro st hst
    cases hs : st.success with
    | false =>
      refine ⟨?_, fun _ => ⟨?_, rfl, by decide⟩⟩ <;> simp [Image.obtainImage, hst, hs]
    | true =>
      refine ⟨?_, fun h => absurd h (by decide)⟩
      simp [Image.obtainImage, hst, hs]

/-- C4 witness: a concrete failing build (exit code 1) produces the
typed build failure with the resolved name. -/
theorem C4_build_exit_status_witness :
    (Image.obtainImage
      (Image.Build
        { name := "foo"
          dockerfile := { absolute := false, components := ["Dockerfile"] }
          context := { absolute := false, components := ["."] }
          target := none })
      { absolute := false, components := [] }
      (fun _ => Except.ok "") (fun _ => Except.ok [])
      (fun _ => Except.ok { code := some 1 })).1
      = some (Except.error (Error.floki
          (FlokiError.failedToBuildImage ("foo" ++ ":floki")
            { process_description := "docker build"
              exit_status := { code := some 1 } }))) :=
  (((C4_build_exit_status
      { name := "foo"
        dockerfile := { absolute := false, components := ["Dockerfile"] }
        context := { absolute := false, components := ["."] }
        target := none }
      { absolute := false, components := [] }
      (fun _ => Except.ok "") (fun _ => Except.ok [])
      (fun _ => Except.ok { code := some 1 })).2
      { code := some 1 } rfl).2 (by decide)).1

/-- C5: for the yaml variant, a file-read failure and a parse failure
are surfaced as i/o and scan errors distinct from the key lookup error,
and whenever the resolver does not produce a string scalar at the key
path, name() fails with the lookup error carrying the key and the
displayed file. -/
theorem C5_yaml_error_taxonomy (y : YamlSpec)
    (fs : Path → Except IOErr String)
    (load : String → Except ScanError (List Yaml)) :
    (∀ e, fs y.file = Except.error e →
       Image.name (Image.Yaml y) fs load = some (Except.error (Error.io e)) ∧
       ∀ k f, Error.io e ≠ Error.floki (FlokiError.failedToFindYamlKey k f)) ∧
    (∀ contents e, fs y.file = Except.ok contents → load contents = Except.error e →
       Image.name (Image.Yaml y) fs load = some (Except.error (Error.scan e)) ∧
       ∀ k f, Error.scan e ≠ Error.floki (FlokiError.failedToFindYamlKey k f)) ∧
    (∀ contents d ds, fs y.file = Except.ok contents → load contents = Except.ok (d :: ds) →
       (resolveSegs (splitDot y.key) d).asStr = none →
       Image.name (Image.Yaml y) fs load =
         some (Except.error (Error.floki
           (FlokiError.failedToFindYamlKey y.key y.file.display)))) := by
  refine ⟨fun e he => ⟨?_, fun k f h => Error.noConfusion h⟩,
    fun contents e hc he => ⟨?_, fun k f h => Error.noConfusion h⟩,
    fun contents d ds hc hl hres => ?_⟩
  · simp [Image.name, he]
  · simp [Image.name, hc, he]
  · simp [Image.name, hc, hl, hres]

/-- C5 witness: a concrete document whose key path ends at a non-string
node yields the lookup error. -/
theorem C5_yaml_error_taxonomy_witness :
    Image.name (Image.Yaml { file := { absolute := false, components := ["cfg"] }, key := "k" })
      (fun _ => Except.ok "doc") (fun _ => Except.ok [Yaml.hash []])
      = some (Except.error (Error.floki (FlokiError.failedToFindYamlKey "k"
          (Path.display { absolute := false, components := ["cfg"] })))) :=
  (C5_yaml_error_taxonomy
    { file := { absolute := false, components := ["cfg"] }, key := "k" }
    (fun _ => Except.ok "doc") (fun _ => Except.ok [Yaml.hash []])).2.2
    "doc" (Yaml.hash []) [] rfl rfl rfl

/-- C6: for a yaml variant whose file reads and parses to at least one
document, name() never panics; a path that bottoms out at the bad value
returns the lookup error, and an absent map key, an out-of-range
sequence index, and any further indexing of the bad value all produce
the bad value. -/
theorem C6_lookup_failure_no_panic (y : YamlSpec)
    (fs : Path → Except IOErr String)
    (load : String → Except ScanError (List Yaml))
    (contents : String) (d : Yaml) (ds : List Yaml)
    (hfs : fs y.file = Except.ok contents)
    (hload : load contents = Except.ok (d :: ds)) :
    (Image.name (Image.Yaml y) fs load ≠ none) ∧
    (resolveSegs (splitDot y.key) d = Yaml.badValue →
       Image.name (Image.Yaml y) fs load =
         some (Except.error (Error.floki
           (FlokiError.failedToFindYamlKey y.key y.file.display)))) ∧
    (∀ (h : List (Yaml × Yaml)) (k : String),
       (∀ p ∈ h, p.1 ≠ Yaml.str k) →
       Yaml.indexStr (Yaml.hash h) k = Yaml.badValue) ∧
    (∀ (xs : List Yaml) (i : Nat), xs.length ≤ i →
       Yaml.indexUsize (Yaml.arr xs) i = Yaml.badValue) ∧
    (∀ rest, resolveSegs rest Yaml.badValue = Yaml.badValue) := by
  refine ⟨?_, fun hres => ?_, ?_, ?_, ?_⟩
  · cases hres : (resolveSegs (splitDot y.key) d).asStr <;>
      simp [Image.name, hfs, hload, hres]
  · simp [Image.name, hfs, hload, hres, Yaml.asStr]
  · intro h k hk
    induction h with
    | nil => rfl
    | cons p t ih =>
      obtain ⟨k1, v1⟩ := p
      have hne : k1 ≠ Yaml.str k := hk (k1, v1) (List.mem_cons_self _ _)
      have ht : ∀ p ∈ t, p.1 ≠ Yaml.str k := fun q hq => hk q (List.mem_cons_of_mem _ hq)
      have := ih ht
      simp [Yaml.indexStr, hashGet, Yaml.beq_str_eq_false k1 k hne] at this ⊢
      exact this
  · intro xs i hlen
    simp [Yaml.indexUsize, List.getD, List.getElem?_eq_none hlen]
  · intro rest
    induction rest with
    | nil => rfl
    | cons k t ih =>
      cases hk : parseUsize k <;>
        simp [resolveSegs, hk, Yaml.indexUsize, Yaml.indexStr, ih]

/-- C6 witness: a concrete document with an absent key returns the
lookup error rather than panicking. -/
theorem C6_lookup_failure_no_panic_witness :
    Image.name (Image.Yaml { file := { absolute := false, components := ["cfg"] }, key := "missing" })
      (fun _ => Except.ok "doc")
      (fun _ => Except.ok [Yaml.hash [(Yaml.str "present", Yaml.str "v")]])
      = some (Except.error (Error.floki (FlokiError.failedToFindYamlKey "missing"
          (Path.display { absolute := false, components := ["cfg"] })))) :=
  (C6_lookup_failure_no_panic
    { file := { absolute := false, components := ["cfg"] }, key := "missing" }
    (fun _ => Except.ok "doc")
    (fun _ => Except.ok [Yaml.hash [(Yaml.str "present", Yaml.str "v")]])
    "doc" (Yaml.hash [(Yaml.str "present", Yaml.str "v")]) [] rfl rfl).2.1 rfl

/-- C7: image_exists_locally returns true exactly when the history
invocation exits with code 0, false for any other exit status, and a
launch failure is surfaced as the typed check failure, which is never
an ok result. -/
theorem C7_exists_locally_exit_code (nm : String)
    (status : Command → Except IOErr ExitStatus) :
    (∀ st, status (historyCommand nm) = Except.ok st →
       (image_exists_locally nm status = Except.ok true ↔ st.code = some 0) ∧
       (st.code ≠ some 0 → image_exists_locally nm status = Except.ok false)) ∧
    (∀ e, status (historyCommand nm) = Except.error e →
       image_exists_locally nm status =
         Except.error (Error.floki (FlokiError.failedToCheckForImage nm e)) ∧
       ∀ b : Bool,
         (Except.error (Error.floki (FlokiError.failedToCheckForImage nm e)) :
           Except Error Bool) ≠ Except.ok b) := by
  refine ⟨fun st hst => ⟨?_, fun hne => ?_⟩,
    fun e he => ⟨?_, fun b h => Except.noConfusion h⟩⟩
  · simp [image_exists_locally, hst]
  · simp [image_exists_locally, hst, hne]
  · simp [image_exists_locally, he]

/-- C7 witness: exit code 1 reports the image as absent. -/
theorem C7_exists_locally_exit_code_witness :
    image_exists_locally "img" (fun _ => Except.ok { code := some 1 }) = Except.ok false :=
  ((C7_exists_locally_exit_code "img" (fun _ => Except.ok { code := some 1 })).1
    { code := some 1 } rfl).2 (by decide)

/-- C8: pull_image succeeds exactly when the pull invocation exits with
status zero, fails with the typed pull failure carrying the name and
exit status on a non-zero or abnormal exit, and propagates a spawn
failure as an i/o error. -/
theorem C8_pull_exit_status (nm : String)
    (run : Command → Except IOErr ExitStatus) :
    (∀ st, run (pullCommand nm) = Except.ok st →
       (pull_image nm run = Except.ok () ↔ st.success = true) ∧
       (st.success = false →
          pull_image nm run = Except.error (Error.floki
            (FlokiError.failedToPullImage nm
              { process_description := "docker pull", exit_status := st })) ∧
          ("docker pull" : String) ≠ "")) ∧
    (∀ e, run (pullCommand nm) = Except.error e →
       pull_image nm run = Except.error (Error.io e)) := by
  refine ⟨fun st hst => ?_, fun e he => ?_⟩
  · cases hs : st.success with
    | false =>
      refine ⟨?_, fun _ => ⟨?_, by decide⟩⟩ <;> simp [pull_image, hst, hs]
    | true =>
      refine ⟨?_, fun h => absurd h (by decide)⟩
      simp [pull_image, hst, hs]
  · simp [pull_image, he]

/-- C8 witness: a concrete failing pull (exit code 2) produces the
typed pull failure. -/
theorem C8_pull_exit_status_witness :
    pull_image "img" (fun _ => Except.ok { code := some 2 })
      = Except.error (Error.floki (FlokiError.failedToPullImage "img"
          { process_description := "docker pull"
            exit_status := { code := some 2 } })) :=
  (((C8_pull_exit_status "img" (fun _ => Except.ok { code := some 2 })).1
    { code := some 2 } rfl).2 (by decide)).1

/-- C9: for the name and yaml variants, obtain_image spawns no command
and returns exactly the result of name(); the floki root and the
process oracle have no effect on the result. -/
theorem C9_passthrough (img : Image) (root root2 : Path)
    (fs : Path → Except IOErr String)
    (load : String → Except ScanError (List Yaml))
    (run run2 : Command → Except IOErr ExitStatus)
    (hnb : ∀ b, img ≠ Image.Build b) :
    Image.obtainImage img root fs load run = (Image.name img fs load, []) ∧
    Image.obtainImage img root fs load run =
      Image.obtainImage img root2 fs load run2 := by
  cases img with
  | Name s => exact ⟨rfl, rfl⟩
  | Yaml y => exact ⟨rfl, rfl⟩
  | Build b => exact absurd rfl (hnb b)

/-- C9 witness: the literal-name variant passes its name through with
no spawned command. -/
theorem C9_passthrough_witness :
    Image.obtainImage (Image.Name "foo") { absolute := true, components := ["r"] }
      (fun _ => Except.ok "") (fun _ => Except.ok [])
      (fun _ => Except.ok { code := some 0 })
      = (Image.name (Image.Name "foo") (fun _ => Except.ok "") (fun _ => Except.ok []), []) :=
  (C9_passthrough (Image.Name "foo")
    { absolute := true, components := ["r"] } { absolute := false, components := [] }
    (fun _ => Except.ok "") (fun _ => Except.ok [])
    (fun _ => Except.ok { code := some 0 }) (fun _ => Except.ok { code := some 0 })
    (fun _ h => Image.noConfusion h)).1

/-- C10: for the yaml variant, after a successful read, a parse that
yields zero documents makes name() index the empty document list and
panic (modelled as the none result); with at least one document name()
never panics. -/
theorem C10_empty_document_list_panics (y : YamlSpec)
    (fs : Path → Except IOErr String)
    (load : String → Except ScanError (List Yaml))
    (contents : String)
    (hfs : fs y.file = Except.ok contents) :
    (load contents = Except.ok [] → Image.name (Image.Yaml y) fs load = none) ∧
    (∀ d ds, load contents = Except.ok (d :: ds) →
       Image.name (Image.Yaml y) fs load ≠ none) := by
  constructor
  · intro hl
    simp [Image.name, hfs, hl]
  · intro d ds hl
    cases hres : (resolveSegs (splitDot y.key) d).asStr <;>
      simp [Image.name, hfs, hl, hres]

/-- C10 witness: an empty parsed document list (as for an empty file)
makes name() panic at the concrete yaml spec. -/
theorem C10_empty_document_list_panics_witness :
    Image.name (Image.Yaml { file := { absolute := false, components := ["cfg"] }, key := "k" })
      (fun _ => Except.ok "") (fun _ => Except.ok []) = none :=
  (C10_empty_document_list_panics
    { file := { absolute := false, components := ["cfg"] }, key := "k" }
    (fun _ => Except.ok "") (fun _ => Except.ok []) "" rfl).1 rfl

end Floki
